import Mathlib

/-!
Verification of the hierarchical provisioning orchestrator in
`iotedge_config_cli` (`src/main.rs`).

The tool walks a configured tree of IoT device definitions, fans out
external CLI calls per node (identity create/delete, parent-child linking,
certificate issuance), and aggregates the outcomes.  We embed the pure
decision logic of `main.rs` shallowly: each external subprocess invocation
is modelled by its observable result (`CommandOutput`), supplied as an
environment function, and the JSON payload parser is an explicit parameter.
Logging is modelled as the list of emitted lines where a claim depends on it
and elided otherwise; log-write and process-spawn failures (plain I/O
plumbing) are treated as absent, which is the only idealization.
-/

/-- Modelled from the spec: `DeviceConfig` lives in `config.rs`, which is not
part of the provided sources.  Per the spec's data model, a device node is an
id together with an ordered sequence of child nodes (a strict tree). -/
inductive DeviceConfig : Type where
  | mk : String → List DeviceConfig → DeviceConfig

def DeviceConfig.device_id : DeviceConfig → String
  | .mk i _ => i

def DeviceConfig.children : DeviceConfig → List DeviceConfig
  | .mk _ cs => cs

/-- Modelled from the spec: `Config` lives in `config.rs` (not in the provided
sources).  Per the spec it supplies registry connection parameters (the hub
name) and the validated device tree. -/
structure Config : Type where
  iot_hub_name : String
  root_device : DeviceConfig

/-- Modelled from the spec: `CreateResponse` lives in `hub_responses.rs` (not
in the provided sources).  Per the spec it is the CreatedIdentity record
parsed from create's stdout, holding at minimum the device id. -/
structure CreateResponse : Type where
  device_id : String
deriving DecidableEq

/-- Observable result of one external subprocess invocation:
`status.success()` plus captured stdout and stderr. -/
structure CommandOutput : Type where
  success : Bool
  stdout : String
  stderr : String

mutual

/-- Number of nodes of a device tree (the tree itself plus all descendants). -/
def DeviceConfig.count : DeviceConfig → Nat
  | .mk _ cs => 1 + countList cs

/-- Total node count of a forest of device trees. -/
def countList : List DeviceConfig → Nat
  | [] => 0
  | c :: cs => DeviceConfig.count c + countList cs

end

mutual

/-- `flatten_devices` (main.rs 108-115): pre-order id list, the node's own id
first, then each child's subtree appended in order. -/
def flatten_devices : DeviceConfig → List String
  | .mk i cs => i :: flattenList cs

/-- The `for child in &device.children { result.append(flatten(child)) }`
loop of `flatten_devices`. -/
def flattenList : List DeviceConfig → List String
  | [] => []
  | c :: cs => flatten_devices c ++ flattenList cs

end

mutual

/-- `IoTHubDeviceManager::get_relationships` (main.rs 207-215): for each
child, push the (parent, child) edge, then append the child's own
relationships, then continue with the remaining children. -/
def get_relationships : DeviceConfig → List (String × String)
  | .mk i cs => relList i cs

/-- The child loop of `get_relationships`, with the parent id in scope. -/
def relList : String → List DeviceConfig → List (String × String)
  | _, [] => []
  | i, c :: cs => (i, c.device_id) :: (get_relationships c ++ relList i cs)

end

/-- `needle.isPrefixOf hay` on character lists, written out explicitly. -/
def startsWith : List Char → List Char → Bool
  | [], _ => true
  | _ :: _, [] => false
  | a :: as_, b :: bs => a == b && startsWith as_ bs

/-- Substring test on character lists: some suffix of `hay` starts with
`needle`.  Models Rust's `str::contains`. -/
def hasSub (needle : List Char) : List Char → Bool
  | [] => startsWith needle []
  | c :: rest => startsWith needle (c :: rest) || hasSub needle rest

/-- The idempotent-delete marker test from `delete_device_identity`
(main.rs 305): `stderr.contains("ErrorCode:DeviceNotFound;")`. -/
def containsNotFound (stderr : String) : Bool :=
  hasSub "ErrorCode:DeviceNotFound;".toList stderr.toList

/-- Model of `into_iter().collect::<Result<Vec<_>>>()` over the joined
results of a wave of futures: first error wins, in wave order; if no call
errored, the payloads are kept in order. -/
def collectResults : List (Except String α) → Except String (List α)
  | [] => .ok []
  | .error e :: _ => .error e
  | .ok a :: rest =>
    match collectResults rest with
    | .error e => .error e
    | .ok tail => .ok (a :: tail)

def isErr : Except String α → Bool
  | .error _ => true
  | .ok _ => false

/-- `IoTHubDeviceManager::create_device_identity` (main.rs 217-251).
`createEnv` gives the observable result of the `az iot hub device-identity
create` subprocess per device id; `parse` is `serde_json::from_slice` on the
captured stdout.  Success requires a successful exit status AND a parsable
stdout payload; a parse failure is returned as an error via `?`. -/
def create_device_identity (parse : String → Option CreateResponse)
    (createEnv : String → CommandOutput) (device_id : String) :
    Except String CreateResponse :=
  let command := createEnv device_id
  if command.success then
    match parse command.stdout with
    | some created_device => .ok created_device
    | none => .error ("serde parse failure on create stdout for " ++ device_id)
  else
    .error ("Failed to create " ++ device_id ++ ":\n" ++ command.stdout
      ++ "\n" ++ command.stderr ++ "\n")

/-- `IoTHubDeviceManager::create_parent_child_relationship` (main.rs
253-287): ok iff the `parent set` subprocess exits successfully. -/
def create_parent_child_relationship (linkEnv : String → String → CommandOutput)
    (parent child : String) : Except String Unit :=
  let command := linkEnv parent child
  if command.success then .ok ()
  else
    .error ("Failed to add " ++ child ++ " as child of parent " ++ parent
      ++ ":\n" ++ command.stdout ++ "\n" ++ command.stderr ++ "\n")

/-- `IoTHubDeviceManager::delete_device_identity` (main.rs 289-323): a
successful exit status, or stderr carrying the DeviceNotFound marker, is
classified `Ok(true)`; anything else is `Ok(false)` — never an error. -/
def delete_device_identity (delEnv : String → CommandOutput)
    (device_id : String) : Except String Bool :=
  let command := delEnv device_id
  if command.success || containsNotFound command.stderr then .ok true
  else .ok false

/-- `IoTHubDeviceManager::create_devices` (main.rs 130-168).  Phase 1 maps
`create_device_identity` over the flattened tree (the whole wave runs;
`collect::<Result<_>>?` then aborts on the first error).  Only when phase 1
collected successfully are the parent-link calls issued; the second
component records exactly the link calls issued during the run. -/
def create_devices (cfg : Config) (parse : String → Option CreateResponse)
    (createEnv : String → CommandOutput)
    (linkEnv : String → String → CommandOutput) :
    Except String (List CreateResponse) × List (String × String) :=
  let devices_to_create := flatten_devices cfg.root_device
  match collectResults
      (devices_to_create.map (create_device_identity parse createEnv)) with
  | .error e => (.error e, [])
  | .ok created_devices =>
    let relationships_to_add := get_relationships cfg.root_device
    match collectResults (relationships_to_add.map
        (fun pc => create_parent_child_relationship linkEnv pc.1 pc.2)) with
    | .error e => (.error e, relationships_to_add)
    | .ok _ => (.ok created_devices, relationships_to_add)

/-- Wrapping `usize` subtraction, the release-profile semantics of `a - b`
on `usize` (under debug assertions the same underflow panics). -/
def usizeSub (a b : Nat) : Nat :=
  (a + (2 ^ 64 - b % 2 ^ 64)) % 2 ^ 64

/-- What the delete workflow reports: whether the "Deleted all devices."
branch was taken, the success tally, the total attempted, and the "failed"
figure printed by the second branch, which the source computes as
`num_successes - devices_to_delete.len()` (main.rs 199). -/
structure DeleteSummary : Type where
  allDeleted : Bool
  numSuccesses : Nat
  total : Nat
  failedShown : Nat
deriving DecidableEq

/-- `IoTHubDeviceManager::delete_devices` (main.rs 170-205): runs one
delete call per flattened device, counts `true` outcomes, and reports
either the all-deleted line or the two-count summary line. -/
def delete_devices (cfg : Config) (delEnv : String → CommandOutput) :
    Except String DeleteSummary :=
  let devices_to_delete := flatten_devices cfg.root_device
  match collectResults (devices_to_delete.map (delete_device_identity delEnv)) with
  | .error e => .error e
  | .ok flags =>
    let num_successes := (flags.filter (fun s => s)).length
    if num_successes = devices_to_delete.length then
      .ok ⟨true, num_successes, devices_to_delete.length, 0⟩
    else
      .ok ⟨false, num_successes, devices_to_delete.length,
        usizeSub num_successes devices_to_delete.length⟩

/-- `CertManager::make_root_cert` (main.rs 366-401).  `certEnv` is the
observable result of the single `openssl req` invocation.  The source logs
the captured stdout/stderr at verbose level, prints the success line, and
returns `Ok(())` without ever inspecting the exit status; the second
component is the list of emitted log lines. -/
def make_root_cert (certEnv : CommandOutput) :
    Except String Unit × List String :=
  let command := certEnv
  (.ok (), ["Making Root CA.", command.stdout ++ command.stderr,
    "Successfully made Root CA."])

/-- `CertManager::make_device_cert` (main.rs 403-446): invokes `openssl req`
for the device, logs its stdout/stderr and a success line at verbose level,
and returns `Ok(())` without inspecting the exit status. -/
def make_device_cert (certEnv : String → CommandOutput)
    (device_id : String) : Except String Unit :=
  let _command := certEnv device_id
  .ok ()

/-- `CertManager::make_all_device_certs` (main.rs 345-364): one
`make_device_cert` per flattened device id, collected with
`collect::<Result<_>>?`, then the summary line; the second component is the
list of non-verbose lines emitted. -/
def make_all_device_certs (cfg : Config) (certEnv : String → CommandOutput) :
    Except String Unit × List String :=
  let certs_to_make := flatten_devices cfg.root_device
  let header := "Creating certs for " ++ toString certs_to_make.length
    ++ " devices"
  match collectResults (certs_to_make.map (make_device_cert certEnv)) with
  | .error e => (.error e, [header])
  | .ok _ => (.ok (), [header, "Created all device certs."])

/-- The tree of the spec's end-to-end scenario 1: root has children A and B,
and A has one child C. -/
def exampleTree : DeviceConfig :=
  .mk "root" [.mk "A" [.mk "C" []], .mk "B" []]

def exampleConfig : Config := ⟨"hub", exampleTree⟩

/-- Three-device tree for the delete scenarios: a with children b, c. -/
def threeTree : DeviceConfig := .mk "a" [.mk "b" [], .mk "c" []]

def threeConfig : Config := ⟨"hub", threeTree⟩

/-- Environment where every external call succeeds with empty output. -/
def envAllOk : String → CommandOutput := fun _ => ⟨true, "", ""⟩

/-- Create environment whose call for device B exits non-zero. -/
def createEnvFailB : String → CommandOutput := fun id =>
  if id = "B" then ⟨false, "", "boom"⟩ else ⟨true, "{}", ""⟩

/-- Create environment echoing the device id as the stdout payload. -/
def createEnvEcho : String → CommandOutput := fun id => ⟨true, id, ""⟩

/-- Parser accepting any stdout payload as a CreatedIdentity record. -/
def parseSome : String → Option CreateResponse := fun s => some ⟨s⟩

/-- Parser rejecting every stdout payload. -/
def parseNone : String → Option CreateResponse := fun _ => none

/-- Link environment where every parent-set call succeeds. -/
def linkEnvOk : String → String → CommandOutput := fun _ _ => ⟨true, "", ""⟩

/-- Delete result: failed exit with the registry's device-not-found
diagnostic on stderr. -/
def delEnvNotFound : String → CommandOutput :=
  fun _ => ⟨false, "", "request error ErrorCode:DeviceNotFound; gone"⟩

/-- Delete result: failed exit with an unrelated diagnostic. -/
def delEnvFail : String → CommandOutput :=
  fun _ => ⟨false, "", "request error ErrorCode:ThrottlingBacklogTimeout;"⟩

/-- The spec's end-to-end scenario 3 over `threeTree`: device b's delete
fails with a generic error, device c's fails with the not-found diagnostic,
device a's succeeds. -/
def delEnvScenario3 : String → CommandOutput := fun id =>
  if id = "b" then ⟨false, "", "request error ErrorCode:ServerBusy;"⟩
  else if id = "c" then ⟨false, "", "oops ErrorCode:DeviceNotFound; gone"⟩
  else ⟨true, "", ""⟩

/-- Certificate environment whose openssl call for device A exits
non-zero. -/
def certEnvFailA : String → CommandOutput := fun id =>
  if id = "A" then ⟨false, "", "openssl: unable to write key"⟩
  else ⟨true, "", ""⟩

/-- A failed root-certificate invocation. -/
def rootFailOutput : CommandOutput := ⟨false, "", "openssl: error"⟩

/-! ### Helper lemmas: tree walker -/

theorem flatten_devices_def (d : DeviceConfig) :
    flatten_devices d = d.device_id :: flattenList d.children := by
  cases d
  rfl

mutual

theorem flatten_length : ∀ d : DeviceConfig,
    (flatten_devices d).length = d.count
  | .mk i cs => by
    simp [flatten_devices, DeviceConfig.count, flattenList_length cs]
    omega

theorem flattenList_length : ∀ cs : List DeviceConfig,
    (flattenList cs).length = countList cs
  | [] => by simp [flattenList, countList]
  | c :: cs => by
    simp [flattenList, countList, flatten_length c, flattenList_length cs]

end

theorem count_pos (d : DeviceConfig) : 1 ≤ d.count := by
  cases d
  simp [DeviceConfig.count]

mutual

theorem rel_length : ∀ d : DeviceConfig,
    (get_relationships d).length = d.count - 1
  | .mk i cs => by
    simp [get_relationships, DeviceConfig.count, relList_length cs i]

theorem relList_length : ∀ (cs : List DeviceConfig) (i : String),
    (relList i cs).length = countList cs
  | [], _ => by simp [relList, countList]
  | c :: cs, i => by
    have h1 := rel_length c
    have h2 := relList_length cs i
    have h3 := count_pos c
    simp [relList, countList, h1, h2]
    omega

end

mutual

theorem rel_sublist : ∀ (d : DeviceConfig) (p c : String),
    (p, c) ∈ get_relationships d → List.Sublist [p, c] (flatten_devices d)
  | .mk i cs, p, c, h => relList_sublist cs i p c h

theorem relList_sublist : ∀ (cs : List DeviceConfig) (i p c : String),
    (p, c) ∈ relList i cs → List.Sublist [p, c] (i :: flattenList cs)
  | [], i, p, c, h => by simp [relList] at h
  | ch :: cs, i, p, c, h => by
    simp only [relList, List.mem_cons, List.mem_append, Prod.mk.injEq] at h
    simp only [flattenList]
    rcases h with ⟨rfl, rfl⟩ | h1 | h2
    · rw [flatten_devices_def ch, List.cons_append]
      exact List.Sublist.cons₂ _ (List.Sublist.cons₂ _ (List.nil_sublist _))
    · have hs := rel_sublist ch p c h1
      exact List.Sublist.cons _ (hs.trans (List.sublist_append_left _ _))
    · have hs := relList_sublist cs i p c h2
      exact hs.trans
        (List.Sublist.cons₂ _ (List.sublist_append_right _ _))

end

theorem flattenList_eq_flatten (cs : List DeviceConfig) :
    flattenList cs = (cs.map flatten_devices).flatten := by
  induction cs with
  | nil => simp [flattenList]
  | cons c cs ih => simp [flattenList, ih]

theorem relList_eq_flatten (i : String) (cs : List DeviceConfig) :
    relList i cs = (cs.map (fun c => (i, c.device_id) :: get_relationships c)).flatten := by
  induction cs with
  | nil => simp [relList]
  | cons c cs ih => simp [relList, ih]

/-! ### Helper lemmas: result collection -/

theorem collectResults_ok_map (f : β → α) (g : β → Except String α)
    (l : List β) (h : ∀ x ∈ l, g x = .ok (f x)) :
    collectResults (l.map g) = .ok (l.map f) := by
  induction l with
  | nil => rfl
  | cons x xs ih =>
    have hx := h x (List.mem_cons_self x xs)
    have htail := ih (fun y hy => h y (List.mem_cons_of_mem x hy))
    simp [collectResults, hx, htail]

theorem collectResults_error_of_mem (g : β → Except String α)
    (l : List β) (x : β) (hmem : x ∈ l) (herr : isErr (g x) = true) :
    isErr (collectResults (l.map g)) = true := by
  induction l with
  | nil => simp at hmem
  | cons y ys ih =>
    rcases List.mem_cons.1 hmem with rfl | h
    · cases hgx : g x with
      | error e => simp [collectResults, hgx, isErr]
      | ok a => rw [hgx] at herr; simp [isErr] at herr
    · have htail := ih h
      cases hgy : g y with
      | error e => simp [collectResults, hgy, isErr]
      | ok a =>
        cases hc : collectResults (ys.map g) with
        | error e => simp [collectResults, hgy, hc, isErr]
        | ok t => rw [hc] at htail; simp [isErr] at htail

/-! ### Claims -/

/-- Claim C1: if any identity-creation call in the create workflow fails,
`create_devices` returns a failure and zero parent-child-relationship calls
are issued for that run (phase 2 is never reached). -/
theorem create_devices_fail_fast (cfg : Config)
    (parse : String → Option CreateResponse)
    (createEnv : String → CommandOutput)
    (linkEnv : String → String → CommandOutput)
    (h : ∃ id ∈ flatten_devices cfg.root_device,
      isErr (create_device_identity parse createEnv id) = true) :
    isErr (create_devices cfg parse createEnv linkEnv).1 = true ∧
      (create_devices cfg parse createEnv linkEnv).2 = [] := by
  obtain ⟨id, hmem, herr⟩ := h
  have hc := collectResults_error_of_mem
    (create_device_identity parse createEnv) _ id hmem herr
  cases hcoll : collectResults ((flatten_devices cfg.root_device).map
      (create_device_identity parse createEnv)) with
  | error e => simp [create_devices, hcoll, isErr]
  | ok t => rw [hcoll] at hc; simp [isErr] at hc

/-- Witness for C1 at scenario 2: device B's creation exits non-zero; the
run fails and no link call is issued. -/
theorem create_devices_fail_fast_witness :
    isErr (create_devices exampleConfig parseSome createEnvFailB linkEnvOk).1
        = true ∧
      (create_devices exampleConfig parseSome createEnvFailB linkEnvOk).2
        = [] :=
  create_devices_fail_fast exampleConfig parseSome createEnvFailB linkEnvOk
    ⟨"B", by decide, by decide⟩

/-- Claim C2 (amended): `make_root_cert` never inspects the certificate
tool's exit status — it returns success, and prints the success line, for
every invocation outcome including a non-zero exit; only directory-creation
and log I/O (outside the modelled core) could fail it. -/
theorem make_root_cert_always_ok (certEnv : CommandOutput) :
    (make_root_cert certEnv).1 = .ok () ∧
      "Successfully made Root CA." ∈ (make_root_cert certEnv).2 := by
  exact ⟨rfl, by simp [make_root_cert]⟩

/-- Counterexample to C2 as stated: a root-certificate invocation that
exits non-zero on which `make_root_cert` nevertheless returns success. -/
theorem make_root_cert_ignores_failure_cex :
    rootFailOutput.success = false ∧
      (make_root_cert rootFailOutput).1 = .ok () :=
  ⟨rfl, rfl⟩

/-- Claim C3 (amended): `make_all_device_certs` returns success and emits
the "Created all device certs." summary line regardless of the per-device
certificate calls' exit statuses, because `make_device_cert` never inspects
them; only directory-creation and log I/O (outside the modelled core) could
fail the aggregate. -/
theorem make_all_device_certs_always_ok (cfg : Config)
    (certEnv : String → CommandOutput) :
    (make_all_device_certs cfg certEnv).1 = .ok () ∧
      "Created all device certs." ∈ (make_all_device_certs cfg certEnv).2 := by
  have hc := collectResults_ok_map (fun _ => ()) (make_device_cert certEnv)
    (flatten_devices cfg.root_device) (fun x _ => rfl)
  constructor <;> simp [make_all_device_certs, hc]

/-- Counterexample to C3 as stated: device A's certificate call exits
non-zero, yet the aggregate call returns success and the summary line is
still emitted. -/
theorem make_all_device_certs_ignores_failure_cex :
    (certEnvFailA "A").success = false ∧
      "A" ∈ flatten_devices exampleConfig.root_device ∧
      (make_all_device_certs exampleConfig certEnvFailA).1 = .ok () ∧
      "Created all device certs."
        ∈ (make_all_device_certs exampleConfig certEnvFailA).2 := by
  refine ⟨rfl, by decide, rfl, ?_⟩
  simp [make_all_device_certs, exampleConfig, exampleTree, flatten_devices,
    flattenList, make_device_cert, collectResults]

/-- Claim C4, evaluated at the failing input: all three delete calls run
and the tally is 2 successes of 3 attempted, but the summary's "failed"
figure is computed by the source as `num_successes -
devices_to_delete.len()` (main.rs 199); the usize subtraction 2 - 3
underflows, yielding 2^64 - 1 under release (wrapping) semantics — and a
panic that aborts the run under the default debug profile — instead of the
intended count 1. -/
theorem delete_devices_failed_count_underflow :
    delete_devices threeConfig delEnvScenario3 =
      .ok ⟨false, 2, 3, 18446744073709551615⟩ ∧
      usizeSub 2 3 ≠ 3 - 2 := by
  exact ⟨rfl, by decide⟩

/-- Claim C5: delete classification — a successful exit, or stderr
containing the DeviceNotFound marker, is classified as success (`Ok true`);
everything else is a non-success classified without raising an error
(`Ok false`, never `Err`). -/
theorem delete_classification :
    (∀ (delEnv : String → CommandOutput) (id : String),
      ∃ b, delete_device_identity delEnv id = .ok b) ∧
    (∀ (delEnv : String → CommandOutput) (id : String),
      (delEnv id).success = true →
        delete_device_identity delEnv id = .ok true) ∧
    (∀ (delEnv : String → CommandOutput) (id : String),
      containsNotFound (delEnv id).stderr = true →
        delete_device_identity delEnv id = .ok true) ∧
    (∀ (delEnv : String → CommandOutput) (id : String),
      (delEnv id).success = false →
        containsNotFound (delEnv id).stderr = false →
          delete_device_identity delEnv id = .ok false) := by
  refine ⟨?_, ?_, ?_, ?_⟩
  · intro env id
    cases h : (env id).success || containsNotFound (env id).stderr with
    | true => exact ⟨true, by simp [delete_device_identity, h]⟩
    | false => exact ⟨false, by simp [delete_device_identity, h]⟩
  · intro env id h
    simp [delete_device_identity, h]
  · intro env id h
    simp [delete_device_identity, h]
  · intro env id h1 h2
    simp [delete_device_identity, h1, h2]

/-- Witness for C5: a successful exit, an already-absent device (failed
exit with the not-found diagnostic), and a genuine failure. -/
theorem delete_classification_witness :
    delete_device_identity envAllOk "d" = .ok true ∧
      delete_device_identity delEnvNotFound "d" = .ok true ∧
      delete_device_identity delEnvFail "d" = .ok false :=
  ⟨delete_classification.2.1 envAllOk "d" rfl,
    delete_classification.2.2.1 delEnvNotFound "d" (by decide),
    delete_classification.2.2.2 delEnvFail "d" rfl (by decide)⟩

/-- Claim C6: `flatten_devices` is the pre-order traversal — the node's id
first, then each child's flattened subtree in configuration order — it has
exactly one entry per node, and on scenario 1's tree it returns
[root, A, C, B]. -/
theorem flatten_preorder :
    (∀ (i : String) (cs : List DeviceConfig),
      flatten_devices (.mk i cs) = i :: (cs.map flatten_devices).flatten) ∧
    (∀ d : DeviceConfig, (flatten_devices d).length = d.count) ∧
    flatten_devices exampleTree = ["root", "A", "C", "B"] := by
  refine ⟨?_, flatten_length, by decide⟩
  intro i cs
  simp [flatten_devices, flattenList_eq_flatten]

/-- Claim C7: `get_relationships` emits exactly nodeCount - 1 edges, each
edge's parent id preceding its child id in `flatten_devices`' output
(as a two-element sublist), edges are emitted pre-order (the edge to a
child precedes that child's own edges), and on scenario 1's tree it
returns [(root,A), (A,C), (root,B)]. -/
theorem relationships_preorder :
    (∀ d : DeviceConfig, (get_relationships d).length = d.count - 1) ∧
    (∀ (d : DeviceConfig) (p c : String),
      (p, c) ∈ get_relationships d →
        List.Sublist [p, c] (flatten_devices d)) ∧
    (∀ (i : String) (cs : List DeviceConfig),
      get_relationships (.mk i cs) =
        (cs.map (fun c => (i, c.device_id) :: get_relationships c)).flatten) ∧
    get_relationships exampleTree = [("root", "A"), ("A", "C"), ("root", "B")] := by
  refine ⟨rel_length, rel_sublist, ?_, by decide⟩
  intro i cs
  simp [get_relationships, relList_eq_flatten]

/-- Witness for C7: the (A, C) edge of scenario 1's tree, with A preceding
C in the flattened output. -/
theorem relationships_preorder_witness :
    ("A", "C") ∈ get_relationships exampleTree ∧
      List.Sublist ["A", "C"] (flatten_devices exampleTree) :=
  ⟨by decide, relationships_preorder.2.1 exampleTree "A" "C" (by decide)⟩

/-- Claim C8: the delete workflow's reported success count equals the
number of per-device outcomes classified as success (successful exit or
not-found), out of the total number of flattened devices attempted. -/
theorem delete_success_count (cfg : Config)
    (delEnv : String → CommandOutput) :
    ∃ s : DeleteSummary,
      delete_devices cfg delEnv = .ok s ∧
      s.numSuccesses = ((flatten_devices cfg.root_device).filter
        (fun id =>
          (delEnv id).success || containsNotFound (delEnv id).stderr)).length ∧
      s.total = (flatten_devices cfg.root_device).length := by
  have h1 : ∀ id ∈ flatten_devices cfg.root_device,
      delete_device_identity delEnv id =
        .ok ((delEnv id).success || containsNotFound (delEnv id).stderr) := by
    intro id _
    cases h : (delEnv id).success || containsNotFound (delEnv id).stderr with
    | true => simp [delete_device_identity, h]
    | false => simp [delete_device_identity, h]
  have hc := collectResults_ok_map
    (fun id => (delEnv id).success || containsNotFound (delEnv id).stderr)
    (delete_device_identity delEnv) (flatten_devices cfg.root_device) h1
  have hfilter : (((flatten_devices cfg.root_device).map
      (fun id => (delEnv id).success || containsNotFound (delEnv id).stderr)).filter
        (fun s => s)).length
      = ((flatten_devices cfg.root_device).filter
        (fun id =>
          (delEnv id).success || containsNotFound (delEnv id).stderr)).length := by
    rw [List.filter_map, List.length_map]
    rfl
  simp only [delete_devices, hc]
  split
  · exact ⟨_, rfl, hfilter, rfl⟩
  · exact ⟨_, rfl, hfilter, rfl⟩

/-- Claim C9: if the create-identity subprocess exits successfully but its
stdout payload does not parse into a CreatedIdentity record,
`create_device_identity` returns a failure. -/
theorem create_parse_failure_is_error
    (parse : String → Option CreateResponse)
    (createEnv : String → CommandOutput) (id : String)
    (hs : (createEnv id).success = true)
    (hp : parse (createEnv id).stdout = none) :
    isErr (create_device_identity parse createEnv id) = true := by
  simp [create_device_identity, hs, hp, isErr]

/-- Witness for C9: a successful exit whose payload the parser rejects. -/
theorem create_parse_failure_is_error_witness :
    (createEnvEcho "dev").success = true ∧
      parseNone (createEnvEcho "dev").stdout = none ∧
      isErr (create_device_identity parseNone createEnvEcho "dev") = true :=
  ⟨rfl, rfl,
    create_parse_failure_is_error parseNone createEnvEcho "dev" rfl rfl⟩

/-- Claim C10: when every create-identity call and every parent-link call
succeeds, `create_devices` returns exactly one created-identity record per
flattened device, in flatten's pre-order (the i-th record is the parsed
payload of the i-th id), with length equal to the node count, and issues
exactly the edge list of link calls. -/
theorem create_devices_all_ok (cfg : Config)
    (parse : String → Option CreateResponse)
    (createEnv : String → CommandOutput)
    (linkEnv : String → String → CommandOutput)
    (f : String → CreateResponse)
    (hcreate : ∀ id ∈ flatten_devices cfg.root_device,
      (createEnv id).success = true ∧ parse (createEnv id).stdout = some (f id))
    (hlink : ∀ pc ∈ get_relationships cfg.root_device,
      (linkEnv pc.1 pc.2).success = true) :
    create_devices cfg parse createEnv linkEnv =
      (.ok ((flatten_devices cfg.root_device).map f),
        get_relationships cfg.root_device) ∧
    ((flatten_devices cfg.root_device).map f).length = cfg.root_device.count := by
  have h1 : ∀ id ∈ flatten_devices cfg.root_device,
      create_device_identity parse createEnv id = .ok (f id) := by
    intro id hid
    obtain ⟨hs, hp⟩ := hcreate id hid
    simp [create_device_identity, hs, hp]
  have h2 : ∀ pc ∈ get_relationships cfg.root_device,
      create_parent_child_relationship linkEnv pc.1 pc.2 = .ok () := by
    intro pc hpc
    simp [create_parent_child_relationship, hlink pc hpc]
  have hc1 := collectResults_ok_map f (create_device_identity parse createEnv)
    (flatten_devices cfg.root_device) h1
  have hc2 := collectResults_ok_map (fun _ => ())
    (fun pc => create_parent_child_relationship linkEnv pc.1 pc.2)
    (get_relationships cfg.root_device) h2
  constructor
  · simp [create_devices, hc1, hc2]
  · simp [flatten_length]

/-- Witness for C10 on scenario 1's tree with an echoing create
environment: the records come back in flatten's order. -/
theorem create_devices_all_ok_witness :
    create_devices exampleConfig parseSome createEnvEcho linkEnvOk =
      (.ok ((flatten_devices exampleConfig.root_device).map
        (fun id => (⟨id⟩ : CreateResponse))),
        get_relationships exampleConfig.root_device) ∧
    ((flatten_devices exampleConfig.root_device).map
      (fun id => (⟨id⟩ : CreateResponse))).length =
      exampleConfig.root_device.count :=
  create_devices_all_ok exampleConfig parseSome createEnvEcho linkEnvOk
    (fun id => ⟨id⟩) (by decide) (by decide)
